import Mathlib

/-!
Verification of the client-side health-insight engine of the doc-chat
repository (`frontend/src/lib/healthInsights.ts`): normalization of the
loosely-typed onboarding record into a typed health snapshot, the rule-based
risk scorer, the insight generator and the specialist-recommendation
generator.  JavaScript numbers are modelled as exact rationals together with
the non-finite values `NaN` / `Infinity` / `-Infinity`; JavaScript strings are
Lean strings with explicitly modelled `trim` / `toLowerCase` / `includes`.
-/

namespace DocChat

/-! ## JavaScript string primitives -/

/-- Whitespace predicate used by the string model (the ASCII whitespace that
both JS `trim` and Lean agree on). -/
def wsChar (c : Char) : Bool := c.isWhitespace

/-- Strip leading whitespace characters. -/
def stripLead (l : List Char) : List Char := l.dropWhile wsChar

/-- Model of JavaScript `String.prototype.trim` on character lists: strip
whitespace at both ends. -/
def trimChars (l : List Char) : List Char :=
  ((stripLead l).reverse.dropWhile wsChar).reverse

/-- Model of JavaScript `String.prototype.trim`. -/
def jsTrim (s : String) : String := ⟨trimChars s.data⟩

/-- Model of JavaScript `String.prototype.toLowerCase` (ASCII letters). -/
def lowerStr (s : String) : String := ⟨s.data.map Char.toLower⟩

/-- Model of JavaScript `String.prototype.includes`: substring search. -/
def containsSub (hay needle : String) : Bool :=
  hay.data.tails.any (fun t => needle.data.isPrefixOf t)

/-- Replace the first occurrence of character `a` by `b`. -/
def replaceFirstChar (a b : Char) : List Char → List Char
  | [] => []
  | c :: cs => if c = a then b :: cs else c :: replaceFirstChar a b cs

/-- Model of JavaScript `String.prototype.replace` with a single-character
pattern: replaces only the first occurrence. -/
def jsReplaceChar (s : String) (a b : Char) : String :=
  ⟨replaceFirstChar a b s.data⟩

/-! ## JavaScript numbers -/

/-- A JavaScript `number`: a finite value (modelled as an exact rational,
ignoring IEEE-754 rounding) or one of the non-finite values `NaN`,
`Infinity`, `-Infinity`. -/
inductive JSNum where
  | finite : ℚ → JSNum
  | nan : JSNum
  | inf : JSNum
  | negInf : JSNum
  deriving DecidableEq

/-- Model of `Number.isFinite`. -/
def jsIsFinite : JSNum → Bool
  | .finite _ => true
  | _ => false

/-- JavaScript `<` on numbers (`NaN` compares false with everything). -/
def jsLt : JSNum → JSNum → Bool
  | .finite a, .finite b => decide (a < b)
  | .finite _, .inf => true
  | .negInf, .finite _ => true
  | .negInf, .inf => true
  | _, _ => false

/-- JavaScript `<=` on numbers (`NaN` compares false with everything). -/
def jsLe : JSNum → JSNum → Bool
  | .finite a, .finite b => decide (a ≤ b)
  | .finite _, .inf => true
  | .negInf, .finite _ => true
  | .negInf, .inf => true
  | .inf, .inf => true
  | .negInf, .negInf => true
  | _, _ => false

/-- JavaScript multiplication on numbers. -/
def jsMul : JSNum → JSNum → JSNum
  | .finite a, .finite b => .finite (a * b)
  | .nan, _ => .nan
  | _, .nan => .nan
  | .inf, .inf => .inf
  | .inf, .negInf => .negInf
  | .negInf, .inf => .negInf
  | .negInf, .negInf => .inf
  | .inf, .finite b => if 0 < b then .inf else if b < 0 then .negInf else .nan
  | .finite a, .inf => if 0 < a then .inf else if a < 0 then .negInf else .nan
  | .negInf, .finite b => if 0 < b then .negInf else if b < 0 then .inf else .nan
  | .finite a, .negInf => if 0 < a then .negInf else if a < 0 then .inf else .nan

/-- JavaScript division on numbers (signed zeroes are not modelled: division
by `0` of a nonzero finite value follows the sign of the numerator). -/
def jsDiv : JSNum → JSNum → JSNum
  | .nan, _ => .nan
  | _, .nan => .nan
  | .finite a, .finite b =>
      if b = 0 then (if a = 0 then .nan else if 0 < a then .inf else .negInf)
      else .finite (a / b)
  | .finite _, .inf => .finite 0
  | .finite _, .negInf => .finite 0
  | .inf, .finite b => if 0 ≤ b then .inf else .negInf
  | .negInf, .finite b => if 0 ≤ b then .negInf else .inf
  | .inf, .inf => .nan
  | .inf, .negInf => .nan
  | .negInf, .inf => .nan
  | .negInf, .negInf => .nan

/-- JavaScript falsiness of a `number` (`0` and `NaN` are falsy). -/
def jsNumFalsy (n : JSNum) : Bool := n = .finite 0 || n = .nan

/-- Net effect of `Number(x.toFixed(1))` on a finite value: round to one
decimal place, ties away from zero upwards (the ECMAScript `toFixed` rule
"if there are two such n, pick the larger n"). -/
def jsToFixed1 (q : ℚ) : ℚ := (⌊q * 10 + 1 / 2⌋ : ℚ) / 10

/-! ## Number-to-string and string-to-number conversions -/

/-- The decimal digit character for `n % 10`. -/
def digitChar (n : ℕ) : Char := Char.ofNat (48 + n % 10)

/-- Decimal digits of a natural number, most significant first. -/
def natDigits (n : ℕ) : List Char :=
  if _h : n < 10 then [digitChar n]
  else natDigits (n / 10) ++ [digitChar n]
termination_by n
decreasing_by omega

/-- Decimal digits of the fractional part of `q` (expected in `[0,1)`),
with the given fuel bounding the number of emitted digits and exact zero
terminating early (so trailing zeros are dropped). -/
def fracDigits : ℕ → ℚ → List Char
  | 0, _ => []
  | fuel + 1, q =>
    if q = 0 then []
    else
      let q10 := q * 10
      digitChar ⌊q10⌋.toNat :: fracDigits fuel (q10 - (⌊q10⌋ : ℚ))

/-- Model of JavaScript `String(x)` for a finite number: optional minus sign,
integer digits, and (when nonzero) a fractional part of at most 17 digits.
Approximates the JS shortest-round-trip double printing on the rational
model. -/
def jsNumToString (q : ℚ) : String :=
  let aq := |q|
  let ipart := natDigits ⌊aq⌋.toNat
  let fpart := fracDigits 17 (aq - (⌊aq⌋ : ℚ))
  ⟨(if q < 0 then ['-'] else []) ++ ipart ++
    (if fpart = [] then [] else '.' :: fpart)⟩

/-- Model of JavaScript string interpolation of a `number`, including the
non-finite spellings. -/
def jsNumDisplay : JSNum → String
  | .finite q => jsNumToString q
  | .nan => "NaN"
  | .inf => "Infinity"
  | .negInf => "-Infinity"

/-- Numeric value of a decimal digit character. -/
def digVal (c : Char) : ℕ := c.toNat - 48

/-- Value of a list of decimal digit characters. -/
def decDigitsVal (l : List Char) : ℕ := l.foldl (fun a c => a * 10 + digVal c) 0

/-- Value of a hexadecimal digit character, if it is one. -/
def hexDigVal (c : Char) : Option ℕ :=
  if c.isDigit then some (digVal c)
  else if 'a' ≤ c ∧ c ≤ 'f' then some (c.toNat - 87)
  else if 'A' ≤ c ∧ c ≤ 'F' then some (c.toNat - 55)
  else none

/-- Value of a digit list in radix `r` (2, 8 or 16), if every digit is valid. -/
def radixVal (r : ℕ) (ds : List Char) : Option ℕ :=
  ds.foldl (fun acc c =>
    match acc, hexDigVal c with
    | some a, some v => if v < r then some (a * r + v) else none
    | _, _ => none) (some 0)

/-- A `0x`/`0o`/`0b` integer literal body: `NaN` when empty or invalid. -/
def parseRadix (r : ℕ) (ds : List Char) : JSNum :=
  if ds = [] then .nan
  else match radixVal r ds with
    | some n => .finite (n : ℚ)
    | none => .nan

/-- An optionally signed nonempty decimal digit run, as used in exponents. -/
def parseSignedInt (l : List Char) : Option ℤ :=
  match l with
  | '+' :: ds => if ds ≠ [] ∧ ds.all Char.isDigit then some (decDigitsVal ds : ℤ) else none
  | '-' :: ds => if ds ≠ [] ∧ ds.all Char.isDigit then some (-(decDigitsVal ds : ℤ)) else none
  | ds => if ds ≠ [] ∧ ds.all Char.isDigit then some (decDigitsVal ds : ℤ) else none

/-- The exponent tail of a decimal literal: empty means exponent `0`. -/
def parseExpPart : List Char → Option ℤ
  | [] => some 0
  | 'e' :: rest => parseSignedInt rest
  | 'E' :: rest => parseSignedInt rest
  | _ => none

/-- The rational value of integer digits, fraction digits and an exponent. -/
def decValue (ds fs : List Char) (e : ℤ) : ℚ :=
  ((decDigitsVal ds : ℚ) + (decDigitsVal fs : ℚ) / (10 : ℚ) ^ fs.length) * (10 : ℚ) ^ e

/-- An unsigned decimal literal `digits [. digits] [e[±]digits]` requiring at
least one digit before or after the decimal point. -/
def parseDecBody (cs : List Char) : Option ℚ :=
  let ds := cs.takeWhile Char.isDigit
  let rest := cs.dropWhile Char.isDigit
  match rest with
  | '.' :: rest2 =>
    let fs := rest2.takeWhile Char.isDigit
    let rest3 := rest2.dropWhile Char.isDigit
    if ds = [] ∧ fs = [] then none
    else (parseExpPart rest3).map (decValue ds fs)
  | _ =>
    if ds = [] then none
    else (parseExpPart rest).map (decValue ds [])

/-- Model of the ECMAScript `Number(string)` conversion: the trimmed string is
interpreted as a `StringNumericLiteral` — empty and whitespace-only strings
convert to `0`; signed decimal literals with optional fraction and exponent;
signed `Infinity`; unsigned binary/octal/hex literals; anything else is
`NaN`.  Finite results are exact rationals (no IEEE-754 rounding, hence also
no overflow of huge exponents to `Infinity`). -/
def jsNumber (s : String) : JSNum :=
  match trimChars s.data with
  | [] => .finite 0
  | '0' :: 'x' :: ds => parseRadix 16 ds
  | '0' :: 'X' :: ds => parseRadix 16 ds
  | '0' :: 'o' :: ds => parseRadix 8 ds
  | '0' :: 'O' :: ds => parseRadix 8 ds
  | '0' :: 'b' :: ds => parseRadix 2 ds
  | '0' :: 'B' :: ds => parseRadix 2 ds
  | cs =>
    let sgn : ℚ := if cs.head? = some '-' then -1 else 1
    let body := if cs.head? = some '-' ∨ cs.head? = some '+' then cs.tail else cs
    if body = "Infinity".data then (if sgn = 1 then .inf else .negInf)
    else
      match parseDecBody body with
      | some q => .finite (sgn * q)
      | none => .nan

/-! ## JavaScript values and the raw onboarding record -/

/-- An arbitrary JavaScript value as it may appear in the raw onboarding
record: primitive string/number/boolean, `null`, `undefined`, or any
non-primitive (`obj` — object or array, whose contents the engine never
inspects). -/
inductive JSValue where
  | str : String → JSValue
  | num : JSNum → JSValue
  | boolean : Bool → JSValue
  | null : JSValue
  | undefined : JSValue
  | obj : JSValue
  deriving DecidableEq

/-- The untyped onboarding record: a key/value bag. -/
abbrev RawRecord := List (String × JSValue)

/-- JavaScript property access `data.key` on the raw record: the first
binding of the key, or `undefined` when the key is missing. -/
def getField (data : RawRecord) (key : String) : JSValue :=
  match data.lookup key with
  | some v => v
  | none => .undefined

/-! ## Data model of the insight engine (`healthInsights.ts`)

`HealthSnapshot` is the `HealthOnboardingPayload` type: every field the
normalizer produces, with `full_name` mandatory (defaulting to the empty
string) and everything else optional.  The AI-extracted payload fields
(`diagnosis`, `treatment_plan`, `doctor_notes`) are never produced nor read
by the insight engine and are omitted from the embedding. -/

@[ext]
structure HealthSnapshot where
  full_name : String
  age : Option JSNum
  sex : Option String
  height : Option JSNum
  weight : Option JSNum
  blood_type : Option String
  allergies : Option String
  conditions : Option String
  medications : Option String
  medical_history : Option String
  past_reports : Option String
  prescriptions : Option String
  symptoms_current : Option String
  symptoms_past : Option String
  location : Option String
  smoking_status : Option String
  alcohol_consumption : Option String
  exercise_frequency : Option String
  diet_type : Option String
  sleep_hours : Option JSNum
  stress_level : Option String
  family_history : Option String
  health_goals : Option String
  emergency_contact_name : Option String
  emergency_contact_phone : Option String
  blood_pressure : Option String
  heart_rate : Option JSNum
  temperature_c : Option JSNum
  spo2 : Option JSNum
  deriving DecidableEq

/-- Severity of an insight / urgency of a recommendation. -/
inductive Severity where
  | low : Severity
  | medium : Severity
  | high : Severity
  deriving DecidableEq

/-- Qualitative risk level. -/
inductive Level where
  | good : Level
  | watch : Level
  | action : Level
  deriving DecidableEq

structure HealthInsight where
  title : String
  detail : String
  action : String
  severity : Severity
  deriving DecidableEq

structure Recommendation where
  specialty : String
  title : String
  reason : String
  urgency : Severity
  deriving DecidableEq

/-- The record returned by `summarizeStatus`. -/
structure RiskAssessment where
  level : Level
  summary : String
  bmi : Option ℚ
  reasons : List String
  deriving DecidableEq

/-! ## The normalizer -/

/-- The `stringVal` (healthInsights.ts:19-23): a string trims to itself when the
trimmed form is nonempty; a finite number stringifies; everything else is
absent. -/
def stringVal (value : JSValue) : Option String :=
  match value with
  | .str s => let t := jsTrim s; if t = "" then none else some t
  | .num (.finite q) => some (jsNumToString q)
  | _ => none

/-- The `numberVal` (healthInsights.ts:25-32): a finite number passes through; a
string is trimmed and converted with `Number(·)`, kept only when finite;
everything else is absent. -/
def numberVal (value : JSValue) : Option JSNum :=
  match value with
  | .num n => if jsIsFinite n then some n else none
  | .str s =>
    let num := jsNumber (jsTrim s)
    if jsIsFinite num then some num else none
  | _ => none

/-- The `normalizeOnboardingData` (healthInsights.ts:34-67).  `none` plays the
role of a `null`/`undefined` raw argument (`raw ?? {}`). -/
def normalizeOnboardingData (raw : Option RawRecord) : HealthSnapshot :=
  let data := raw.getD []
  { full_name := (stringVal (getField data "full_name")).getD ""
    age := numberVal (getField data "age")
    sex := stringVal (getField data "sex")
    height := numberVal (getField data "height")
    weight := numberVal (getField data "weight")
    blood_type := stringVal (getField data "blood_type")
    allergies := stringVal (getField data "allergies")
    conditions := stringVal (getField data "conditions")
    medications := stringVal (getField data "medications")
    medical_history := stringVal (getField data "medical_history")
    past_reports := stringVal (getField data "past_reports")
    prescriptions := stringVal (getField data "prescriptions")
    symptoms_current := stringVal (getField data "symptoms_current")
    symptoms_past := stringVal (getField data "symptoms_past")
    location := stringVal (getField data "location")
    smoking_status := stringVal (getField data "smoking_status")
    alcohol_consumption := stringVal (getField data "alcohol_consumption")
    exercise_frequency := stringVal (getField data "exercise_frequency")
    diet_type := stringVal (getField data "diet_type")
    sleep_hours := numberVal (getField data "sleep_hours")
    stress_level := stringVal (getField data "stress_level")
    family_history := stringVal (getField data "family_history")
    health_goals := stringVal (getField data "health_goals")
    emergency_contact_name := stringVal (getField data "emergency_contact_name")
    emergency_contact_phone := stringVal (getField data "emergency_contact_phone")
    blood_pressure := stringVal (getField data "blood_pressure")
    heart_rate := numberVal (getField data "heart_rate")
    temperature_c := numberVal (getField data "temperature_c")
    spo2 := numberVal (getField data "spo2") }

/-! ## BMI and keyword matching -/

/-- The `computeBMI` (healthInsights.ts:69-75): guard falsy height/weight
(missing, `0` or `NaN`), guard `heightM <= 0`, divide, and keep the result
rounded to one decimal only when finite. -/
def computeBMI (heightCm weightKg : Option JSNum) : Option ℚ :=
  match heightCm, weightKg with
  | some h, some w =>
    if jsNumFalsy h || jsNumFalsy w then none
    else
      let heightM := jsDiv h (.finite 100)
      if jsLe heightM (.finite 0) then none
      else
        match jsDiv w (jsMul heightM heightM) with
        | .finite bmi => some (jsToFixed1 bmi)
        | _ => none
  | _, _ => none

/-- The `hasKeyword` (healthInsights.ts:77-81): false on absent or empty text,
otherwise case-insensitive substring search for any keyword. -/
def hasKeyword (text : Option String) (keywords : List String) : Bool :=
  match text with
  | none => false
  | some t =>
    if t = "" then false
    else keywords.any (fun k => containsSub (lowerStr t) k)

/-! ## The risk scorer (`summarizeStatus`, healthInsights.ts:83-161)

The source mutates a `score` counter and a `reasons` array through ten
sequential conditional blocks; each block is one `…Step` function on the
`(score, reasons)` state, applied in source order. -/

/-- The `if (bmi) { if (bmi >= 30) … else if (bmi >= 25) … }` — recall that a
`0` BMI is falsy in JS. -/
def bmiStep (bmi : Option ℚ) (st : ℕ × List String) : ℕ × List String :=
  match bmi with
  | some b =>
    if b ≠ 0 then
      if 30 ≤ b then (st.1 + 2, st.2 ++ ["BMI in obese range"])
      else if 25 ≤ b then (st.1 + 1, st.2 ++ ["BMI in overweight range"])
      else st
    else st
  | none => st

/-- The `data.sleep_hours !== undefined && data.sleep_hours < 6`. -/
def sleepStep (sleep_hours : Option JSNum) (st : ℕ × List String) : ℕ × List String :=
  match sleep_hours with
  | some n => if jsLt n (.finite 6) then (st.1 + 1, st.2 ++ ["Low sleep (<6h)"]) else st
  | none => st

/-- The `stress_level` equal to `"high"` or `"very_high"`. -/
def stressStep (stress_level : Option String) (st : ℕ × List String) : ℕ × List String :=
  if stress_level = some "high" ∨ stress_level = some "very_high" then
    (st.1 + 1, st.2 ++ ["Elevated stress"])
  else st

/-- The `regular` scores 2, `occasional`/`former` score 1. -/
def smokingStep (smoking_status : Option String) (st : ℕ × List String) : ℕ × List String :=
  if smoking_status = some "regular" then (st.1 + 2, st.2 ++ ["Smoking habit"])
  else if smoking_status = some "occasional" ∨ smoking_status = some "former" then
    (st.1 + 1, st.2 ++ ["Smoking history"])
  else st

/-- The `heavy` scores 2, `moderate` scores 1. -/
def alcoholStep (alcohol_consumption : Option String) (st : ℕ × List String) : ℕ × List String :=
  if alcohol_consumption = some "heavy" then (st.1 + 2, st.2 ++ ["Heavy alcohol intake"])
  else if alcohol_consumption = some "moderate" then
    (st.1 + 1, st.2 ++ ["Moderate alcohol intake"])
  else st

/-- The `data.heart_rate !== undefined && data.heart_rate > 100`. -/
def heartRateStep (heart_rate : Option JSNum) (st : ℕ × List String) : ℕ × List String :=
  match heart_rate with
  | some n => if jsLt (.finite 100) n then (st.1 + 1, st.2 ++ ["Elevated heart rate"]) else st
  | none => st

/-- The `data.temperature_c !== undefined && data.temperature_c >= 37.8`. -/
def tempStep (temperature_c : Option JSNum) (st : ℕ × List String) : ℕ × List String :=
  match temperature_c with
  | some n => if jsLe (.finite (37.8 : ℚ)) n then (st.1 + 1, st.2 ++ ["Fever-range temperature"]) else st
  | none => st

/-- The `data.spo2 !== undefined && data.spo2 < 94`. -/
def spo2Step (spo2 : Option JSNum) (st : ℕ × List String) : ℕ × List String :=
  match spo2 with
  | some n => if jsLt n (.finite 94) then (st.1 + 1, st.2 ++ ["Low oxygen saturation"]) else st
  | none => st

/-- The `hasKeyword` on `family_history` with keywords heart, cardiac, stroke. -/
def famHistStep (family_history : Option String) (st : ℕ × List String) : ℕ × List String :=
  if hasKeyword family_history ["heart", "cardiac", "stroke"] then
    (st.1 + 1, st.2 ++ ["Cardiovascular family history"])
  else st

/-- The `hasKeyword` on `conditions` with keywords diab, hypertension, bp, blood pressure. -/
def condStep (conditions : Option String) (st : ℕ × List String) : ℕ × List String :=
  if hasKeyword conditions ["diab", "hypertension", "bp", "blood pressure"] then
    (st.1 + 1, st.2 ++ ["Chronic condition risk"])
  else st

/-- The `(score, reasons)` accumulation of `summarizeStatus`, in source
order. -/
def riskScoreReasons (data : HealthSnapshot) : ℕ × List String :=
  let bmi := computeBMI data.height data.weight
  let st : ℕ × List String := (0, [])
  let st := bmiStep bmi st
  let st := sleepStep data.sleep_hours st
  let st := stressStep data.stress_level st
  let st := smokingStep data.smoking_status st
  let st := alcoholStep data.alcohol_consumption st
  let st := heartRateStep data.heart_rate st
  let st := tempStep data.temperature_c st
  let st := spo2Step data.spo2 st
  let st := famHistStep data.family_history st
  let st := condStep data.conditions st
  st

/-- The `summarizeStatus` (healthInsights.ts:83-161). -/
def summarizeStatus (data : HealthSnapshot) : RiskAssessment :=
  let bmi := computeBMI data.height data.weight
  let sr := riskScoreReasons data
  let score := sr.1
  let reasons := sr.2
  let level : Level := if 4 ≤ score then .action else if 2 ≤ score then .watch else .good
  let summary :=
    match level with
    | .good => "Stable baseline with no major red flags detected."
    | .watch => "Some risk factors detected. Monitor and address them proactively."
    | .action => "Multiple risk factors detected. Consider clinician follow-up."
  { level := level, summary := summary, bmi := bmi, reasons := reasons }

/-! ## The insight generator (`buildInsights`, healthInsights.ts:163-293)

The source pushes one unconditional "Overall status" insight and then twelve
conditional insights onto an array; each push is modelled by appending, and
the payload of each conditional insight is its own definition. -/

/-- Interpolation `${x}` of a possibly-undefined string. -/
def jsStrOptDisplay (x : Option String) : String := x.getD "undefined"

/-- Interpolation `${x}` of a possibly-undefined number. -/
def jsNumOptDisplay (x : Option JSNum) : String :=
  match x with
  | some n => jsNumDisplay n
  | none => "undefined"

/-- The unconditional first insight (healthInsights.ts:167-177). -/
def overallInsight (status : RiskAssessment) : HealthInsight :=
  { title := "Overall status"
    detail := status.summary
    action :=
      if status.level = .action then "Schedule a clinician review to address the highlighted risks."
      else if status.level = .watch then "Track metrics weekly and adjust lifestyle factors."
      else "Maintain current habits and continue periodic check-ins."
    severity :=
      if status.level = .action then .high
      else if status.level = .watch then .medium else .low }

/-- The "Body composition" (healthInsights.ts:179-191), for a truthy BMI `b`. -/
def bodyInsight (b : ℚ) : HealthInsight :=
  let cat : String :=
    if 30 ≤ b then "obese" else if 25 ≤ b then "overweight"
    else if b < (18.5 : ℚ) then "underweight" else "healthy"
  { title := "Body composition"
    detail := "BMI " ++ jsNumToString b ++ " (" ++ cat ++ ")."
    action :=
      if cat = "healthy" then "Keep balanced nutrition and activity levels."
      else "Aim for gradual changes (sleep, nutrition, activity); consider a clinician or dietitian check-in."
    severity := if cat = "healthy" then .low else if cat = "overweight" then .medium else .high }

/-- The "Sleep hygiene" (healthInsights.ts:193-200). -/
def sleepInsight (sleep_hours : Option JSNum) : HealthInsight :=
  { title := "Sleep hygiene"
    detail := "Average sleep " ++ jsNumOptDisplay sleep_hours ++ "h — below the 7–9h target."
    action := "Set a regular schedule, reduce caffeine late day, and wind-down 60 minutes before bed."
    severity := if (match sleep_hours with | some n => jsLt n (.finite 6) | none => false) then .high else .medium }

/-- The "Heart rate" (healthInsights.ts:202-209). -/
def heartRateInsight (heart_rate : Option JSNum) : HealthInsight :=
  { title := "Heart rate"
    detail := "Resting heart rate " ++ jsNumOptDisplay heart_rate ++ " bpm — above normal range."
    action := "If persistent, discuss with a clinician; check hydration, caffeine, and stress."
    severity := .medium }

/-- The "Fever signal" (healthInsights.ts:211-218). -/
def feverInsight (temperature_c : Option JSNum) : HealthInsight :=
  { title := "Fever signal"
    detail := "Temperature " ++ jsNumOptDisplay temperature_c ++ "°C."
    action := "Monitor symptoms and seek care if fever persists or worsens."
    severity := .medium }

/-- The "Oxygen saturation" (healthInsights.ts:220-227). -/
def spo2Insight (spo2 : Option JSNum) : HealthInsight :=
  { title := "Oxygen saturation"
    detail := "SpO₂ " ++ jsNumOptDisplay spo2 ++ "% — below typical baseline."
    action := "If symptomatic (e.g., breathlessness), consider urgent evaluation."
    severity := .high }

/-- The "Current symptoms" (healthInsights.ts:229-236). -/
def symptomsInsight (symptoms_current : Option String) : HealthInsight :=
  { title := "Current symptoms"
    detail := symptoms_current.getD ""
    action := "Used to triage and tailor recommendations."
    severity := .medium }

/-- The "Stress load" (healthInsights.ts:238-245); the optional-chained replace
substitutes a space for the first underscore only. -/
def stressInsight (stress_level : Option String) : HealthInsight :=
  { title := "Stress load"
    detail := "Reported stress: " ++ jsStrOptDisplay (stress_level.map (fun s => jsReplaceChar s '_' ' '))
    action := "Integrate brief daily decompression (breathing, walks) and consider speaking with a counselor."
    severity := .medium }

/-- The "Activity level" (healthInsights.ts:247-254). -/
def activityInsight (exercise_frequency : Option String) : HealthInsight :=
  { title := "Activity level"
    detail := "Exercise: " ++ jsStrOptDisplay exercise_frequency ++ "."
    action := "Target 150 minutes/week of moderate activity; start with 10–20 minute walks most days."
    severity := .medium }

/-- The "Tobacco risk" (healthInsights.ts:256-263). -/
def tobaccoInsight (smoking_status : Option String) : HealthInsight :=
  { title := "Tobacco risk"
    detail := "Smoking status: " ++ jsStrOptDisplay smoking_status ++ "."
    action := "Discuss cessation aids and lung screening timeline with a clinician."
    severity := if smoking_status = some "regular" then .high else .medium }

/-- The "Alcohol use" (healthInsights.ts:265-272). -/
def alcoholInsight (alcohol_consumption : Option String) : HealthInsight :=
  { title := "Alcohol use"
    detail := "Alcohol intake: " ++ jsStrOptDisplay alcohol_consumption ++ "."
    action := "Limit to within recommended guidelines; consider alcohol-free days each week."
    severity := if alcohol_consumption = some "heavy" then .high else .medium }

/-- The "Family history flags" (healthInsights.ts:274-281). -/
def famHistInsight : HealthInsight :=
  { title := "Family history flags"
    detail := "Family history includes cardiovascular or cancer risk."
    action := "Share this with your primary doctor; adhere to screening intervals earlier where indicated."
    severity := .medium }

/-- The "Chronic conditions" (healthInsights.ts:283-290). -/
def chronicInsight (conditions : Option String) : HealthInsight :=
  { title := "Chronic conditions"
    detail := "Reported: " ++ jsStrOptDisplay conditions ++ "."
    action := "Ensure medications are reconciled and monitoring plans are in place."
    severity := .medium }

/-- The `insights.push(x)` guarded by a condition. -/
def pushIf (acc : List HealthInsight) (cond : Bool) (x : HealthInsight) : List HealthInsight :=
  if cond then acc ++ [x] else acc

/-- The `buildInsights` (healthInsights.ts:163-293): one unconditional push and
twelve conditional pushes, in source order. -/
def buildInsights (data : HealthSnapshot) : List HealthInsight :=
  let status := summarizeStatus data
  let insights : List HealthInsight := [overallInsight status]
  let insights := pushIf insights
    (match status.bmi with | some b => decide (b ≠ 0) | none => false)
    (bodyInsight (status.bmi.getD 0))
  let insights := pushIf insights
    (match data.sleep_hours with | some n => jsLt n (.finite 7) | none => false)
    (sleepInsight data.sleep_hours)
  let insights := pushIf insights
    (match data.heart_rate with | some n => jsLt (.finite 100) n | none => false)
    (heartRateInsight data.heart_rate)
  let insights := pushIf insights
    (match data.temperature_c with | some n => jsLe (.finite (37.8 : ℚ)) n | none => false)
    (feverInsight data.temperature_c)
  let insights := pushIf insights
    (match data.spo2 with | some n => jsLt n (.finite 94) | none => false)
    (spo2Insight data.spo2)
  let insights := pushIf insights
    (match data.symptoms_current with | some s => decide (s ≠ "") | none => false)
    (symptomsInsight data.symptoms_current)
  let insights := pushIf insights
    (decide (data.stress_level = some "high" ∨ data.stress_level = some "very_high"))
    (stressInsight data.stress_level)
  let insights := pushIf insights
    (match data.exercise_frequency with
     | some e => decide (e ≠ "") && decide (e = "sedentary" ∨ e = "light")
     | none => false)
    (activityInsight data.exercise_frequency)
  let insights := pushIf insights
    (decide (data.smoking_status = some "regular" ∨ data.smoking_status = some "occasional"))
    (tobaccoInsight data.smoking_status)
  let insights := pushIf insights
    (decide (data.alcohol_consumption = some "heavy" ∨ data.alcohol_consumption = some "moderate"))
    (alcoholInsight data.alcohol_consumption)
  let insights := pushIf insights
    (hasKeyword data.family_history ["heart", "stroke", "cancer"])
    famHistInsight
  let insights := pushIf insights
    (match data.conditions with | some c => decide (c ≠ "") | none => false)
    (chronicInsight data.conditions)
  insights

/-! ## The recommendation generator (`buildRecommendations`, healthInsights.ts:295-345) -/

/-- The `add` closure (healthInsights.ts:298-300): push only when no earlier
recommendation has the same specialty. -/
def addRec (recs : List Recommendation) (rec : Recommendation) : List Recommendation :=
  if recs.any (fun r => r.specialty = rec.specialty) then recs else recs ++ [rec]

/-- The nullish-coalescing fallback chain symptoms_current, conditions,
symptoms_past, empty string (healthInsights.ts:302). -/
def symptomTextOf (data : HealthSnapshot) : String :=
  (data.symptoms_current <|> data.conditions <|> data.symptoms_past).getD ""

/-- The Cardiology trigger (healthInsights.ts:304-308). -/
def cardioCond (data : HealthSnapshot) : Bool :=
  hasKeyword (some (symptomTextOf data)) ["chest pain", "shortness of breath", "palpitations"] ||
  hasKeyword data.family_history ["heart", "cardiac"] ||
  hasKeyword data.conditions ["hypertension"]

/-- The Cardiology payload (healthInsights.ts:309-314). -/
def cardioRec (data : HealthSnapshot) : Recommendation :=
  { specialty := "Cardiology"
    title := "Cardiology consult"
    reason := "Cardio risk signals (symptoms or family history)."
    urgency := if hasKeyword (some (symptomTextOf data)) ["chest pain", "shortness of breath"]
               then .high else .medium }

/-- The Pulmonology trigger (healthInsights.ts:317). -/
def pulmoCond (data : HealthSnapshot) : Bool :=
  hasKeyword (some (symptomTextOf data)) ["cough", "wheez", "asthma"] ||
  decide (data.smoking_status = some "regular")

/-- The Pulmonology payload (healthInsights.ts:318-323). -/
def pulmoRec (data : HealthSnapshot) : Recommendation :=
  { specialty := "Pulmonology"
    title := "Lung health review"
    reason := "Respiratory symptoms or smoking history."
    urgency := if data.smoking_status = some "regular" then .medium else .low }

/-- The Endocrinology trigger (healthInsights.ts:326). -/
def endoCond (data : HealthSnapshot) : Bool :=
  hasKeyword (some (symptomTextOf data)) ["blood sugar", "glucose"] ||
  hasKeyword data.conditions ["diab"]

/-- The Endocrinology payload (healthInsights.ts:327-332). -/
def endoRec : Recommendation :=
  { specialty := "Endocrinology"
    title := "Metabolic check"
    reason := "Metabolic flags (diabetes or glucose concerns)."
    urgency := .medium }

/-- The Behavioral Health trigger (healthInsights.ts:335). -/
def behavCond (data : HealthSnapshot) : Bool :=
  decide (data.stress_level = some "high" ∨ data.stress_level = some "very_high")

/-- The Behavioral Health payload (healthInsights.ts:336-341). -/
def behavRec : Recommendation :=
  { specialty := "Behavioral Health"
    title := "Stress & mood support"
    reason := "Elevated stress reported."
    urgency := .medium }

/-- The `buildRecommendations` (healthInsights.ts:295-345): four conditional
`add` calls in source order, then `recs.slice(0, 4)`. -/
def buildRecommendations (data : HealthSnapshot) : List Recommendation :=
  let recs : List Recommendation := []
  let recs := if cardioCond data then addRec recs (cardioRec data) else recs
  let recs := if pulmoCond data then addRec recs (pulmoRec data) else recs
  let recs := if endoCond data then addRec recs endoRec else recs
  let recs := if behavCond data then addRec recs behavRec else recs
  recs.take 4

/-! ## The risk table as an ordered list of (predicate, effect) rules

The spec (§4.2) describes `summarizeStatus` as a fixed-order table of
checks, each appending one reason string and one score delta when its
condition fires.  `riskRules` is that table; the theorems below relate the
sequential mutation of the source to it. -/

/-- Apply an ordered list of `(condition, reason, score Δ)` rules to a
`(score, reasons)` state. -/
def applyRules (st : ℕ × List String) : List (Bool × String × ℕ) → ℕ × List String
  | [] => st
  | r :: rs => applyRules (if r.1 then (st.1 + r.2.2, st.2 ++ [r.2.1]) else st) rs

/-- Row 1 of the table: BMI ≥ 30 (with a truthy BMI). -/
def bmiObeseCond (bmi : Option ℚ) : Bool :=
  match bmi with
  | some b => decide (b ≠ 0) && decide (30 ≤ b)
  | none => false

/-- Row 1b: else BMI ≥ 25 (with a truthy BMI). -/
def bmiOverCond (bmi : Option ℚ) : Bool :=
  match bmi with
  | some b => decide (b ≠ 0) && !decide (30 ≤ b) && decide (25 ≤ b)
  | none => false

def bmiRules (bmi : Option ℚ) : List (Bool × String × ℕ) :=
  [(bmiObeseCond bmi, "BMI in obese range", 2),
   (bmiOverCond bmi, "BMI in overweight range", 1)]

/-- Row 2: sleep_hours present and < 6. -/
def sleepCond (sleep_hours : Option JSNum) : Bool :=
  match sleep_hours with
  | some n => jsLt n (.finite 6)
  | none => false

def sleepRules (sleep_hours : Option JSNum) : List (Bool × String × ℕ) :=
  [(sleepCond sleep_hours, "Low sleep (<6h)", 1)]

/-- Row 3: stress_level ∈ {high, very_high}. -/
def stressCond (stress_level : Option String) : Bool :=
  decide (stress_level = some "high" ∨ stress_level = some "very_high")

def stressRules (stress_level : Option String) : List (Bool × String × ℕ) :=
  [(stressCond stress_level, "Elevated stress", 1)]

/-- Rows 4 and 4b: smoking_status = regular, else ∈ {occasional, former}. -/
def smokingRules (smoking_status : Option String) : List (Bool × String × ℕ) :=
  [(decide (smoking_status = some "regular"), "Smoking habit", 2),
   (!decide (smoking_status = some "regular") &&
      decide (smoking_status = some "occasional" ∨ smoking_status = some "former"),
    "Smoking history", 1)]

/-- Rows 5 and 5b: alcohol_consumption = heavy, else = moderate. -/
def alcoholRules (alcohol_consumption : Option String) : List (Bool × String × ℕ) :=
  [(decide (alcohol_consumption = some "heavy"), "Heavy alcohol intake", 2),
   (!decide (alcohol_consumption = some "heavy") &&
      decide (alcohol_consumption = some "moderate"),
    "Moderate alcohol intake", 1)]

/-- Row 6: heart_rate present and > 100. -/
def heartRateCond (heart_rate : Option JSNum) : Bool :=
  match heart_rate with
  | some n => jsLt (.finite 100) n
  | none => false

def heartRateRules (heart_rate : Option JSNum) : List (Bool × String × ℕ) :=
  [(heartRateCond heart_rate, "Elevated heart rate", 1)]

/-- Row 7: temperature_c present and ≥ 37.8. -/
def tempCond (temperature_c : Option JSNum) : Bool :=
  match temperature_c with
  | some n => jsLe (.finite (37.8 : ℚ)) n
  | none => false

def tempRules (temperature_c : Option JSNum) : List (Bool × String × ℕ) :=
  [(tempCond temperature_c, "Fever-range temperature", 1)]

/-- Row 8: spo2 present and < 94. -/
def spo2Cond (spo2 : Option JSNum) : Bool :=
  match spo2 with
  | some n => jsLt n (.finite 94)
  | none => false

def spo2Rules (spo2 : Option JSNum) : List (Bool × String × ℕ) :=
  [(spo2Cond spo2, "Low oxygen saturation", 1)]

/-- Row 9: family_history contains heart/cardiac/stroke. -/
def famHistRules (family_history : Option String) : List (Bool × String × ℕ) :=
  [(hasKeyword family_history ["heart", "cardiac", "stroke"],
    "Cardiovascular family history", 1)]

/-- Row 10: conditions contains diab/hypertension/bp/blood pressure. -/
def condRules (conditions : Option String) : List (Bool × String × ℕ) :=
  [(hasKeyword conditions ["diab", "hypertension", "bp", "blood pressure"],
    "Chronic condition risk", 1)]

/-- The full §4.2 table for a snapshot, in the fixed order of the spec. -/
def riskRules (data : HealthSnapshot) : List (Bool × String × ℕ) :=
  bmiRules (computeBMI data.height data.weight) ++
  sleepRules data.sleep_hours ++
  stressRules data.stress_level ++
  smokingRules data.smoking_status ++
  alcoholRules data.alcohol_consumption ++
  heartRateRules data.heart_rate ++
  tempRules data.temperature_c ++
  spo2Rules data.spo2 ++
  famHistRules data.family_history ++
  condRules data.conditions

/-- The rows of the table that fire on a snapshot, in table order. -/
def firedRules (data : HealthSnapshot) : List (String × ℕ) :=
  ((riskRules data).filter (fun r => r.1)).map (fun r => r.2)

/-- The level mapping of the spec: score ≥ 4 → action, score ≥ 2 → watch,
else good. -/
def levelOfScore (score : ℕ) : Level :=
  if 4 ≤ score then .action else if 2 ≤ score then .watch else .good

theorem applyRules_append (st : ℕ × List String) (l1 l2 : List (Bool × String × ℕ)) :
    applyRules st (l1 ++ l2) = applyRules (applyRules st l1) l2 := by
  induction l1 generalizing st with
  | nil => rfl
  | cons r rs ih => simp [applyRules, ih]

theorem applyRules_eq (st : ℕ × List String) (l : List (Bool × String × ℕ)) :
    applyRules st l =
      (st.1 + ((l.filter (fun r => r.1)).map (fun r => r.2.2)).sum,
       st.2 ++ (l.filter (fun r => r.1)).map (fun r => r.2.1)) := by
  induction l generalizing st with
  | nil => simp [applyRules]
  | cons r rs ih =>
    cases hr : r.1 with
    | true => simp [applyRules, hr, ih, List.filter_cons, Nat.add_assoc]
    | false => simp [applyRules, hr, ih, List.filter_cons]

theorem bmiStep_eq (bmi : Option ℚ) (st : ℕ × List String) :
    bmiStep bmi st = applyRules st (bmiRules bmi) := by
  cases bmi with
  | none => simp [bmiStep, bmiRules, bmiObeseCond, bmiOverCond, applyRules]
  | some b =>
    by_cases h0 : b = 0 <;> by_cases h30 : 30 ≤ b <;> by_cases h25 : 25 ≤ b <;>
      simp [bmiStep, bmiRules, bmiObeseCond, bmiOverCond, applyRules, h0, h30, h25]

theorem sleepStep_eq (s : Option JSNum) (st : ℕ × List String) :
    sleepStep s st = applyRules st (sleepRules s) := by
  cases s with
  | none => simp [sleepStep, sleepRules, sleepCond, applyRules]
  | some n =>
    by_cases h : jsLt n (.finite 6) <;>
      simp [sleepStep, sleepRules, sleepCond, applyRules, h]

theorem stressStep_eq (s : Option String) (st : ℕ × List String) :
    stressStep s st = applyRules st (stressRules s) := by
  by_cases h : s = some "high" ∨ s = some "very_high" <;>
    simp [stressStep, stressRules, stressCond, applyRules, h]

theorem smokingStep_eq (s : Option String) (st : ℕ × List String) :
    smokingStep s st = applyRules st (smokingRules s) := by
  by_cases h1 : s = some "regular" <;>
    by_cases h2 : s = some "occasional" ∨ s = some "former" <;>
      simp [smokingStep, smokingRules, applyRules, h1, h2]

theorem alcoholStep_eq (s : Option String) (st : ℕ × List String) :
    alcoholStep s st = applyRules st (alcoholRules s) := by
  by_cases h1 : s = some "heavy" <;> by_cases h2 : s = some "moderate" <;>
    simp [alcoholStep, alcoholRules, applyRules, h1, h2]

theorem heartRateStep_eq (s : Option JSNum) (st : ℕ × List String) :
    heartRateStep s st = applyRules st (heartRateRules s) := by
  cases s with
  | none => simp [heartRateStep, heartRateRules, heartRateCond, applyRules]
  | some n =>
    by_cases h : jsLt (.finite 100) n <;>
      simp [heartRateStep, heartRateRules, heartRateCond, applyRules, h]

theorem tempStep_eq (s : Option JSNum) (st : ℕ × List String) :
    tempStep s st = applyRules st (tempRules s) := by
  cases s with
  | none => simp [tempStep, tempRules, tempCond, applyRules]
  | some n =>
    by_cases h : jsLe (.finite (37.8 : ℚ)) n <;>
      simp [tempStep, tempRules, tempCond, applyRules, h]

theorem spo2Step_eq (s : Option JSNum) (st : ℕ × List String) :
    spo2Step s st = applyRules st (spo2Rules s) := by
  cases s with
  | none => simp [spo2Step, spo2Rules, spo2Cond, applyRules]
  | some n =>
    by_cases h : jsLt n (.finite 94) <;>
      simp [spo2Step, spo2Rules, spo2Cond, applyRules, h]

theorem famHistStep_eq (s : Option String) (st : ℕ × List String) :
    famHistStep s st = applyRules st (famHistRules s) := by
  by_cases h : hasKeyword s ["heart", "cardiac", "stroke"] <;>
    simp [famHistStep, famHistRules, applyRules, h]

theorem condStep_eq (s : Option String) (st : ℕ × List String) :
    condStep s st = applyRules st (condRules s) := by
  by_cases h : hasKeyword s ["diab", "hypertension", "bp", "blood pressure"] <;>
    simp [condStep, condRules, applyRules, h]

/-- The sequential mutation of `summarizeStatus` is the rule-table fold. -/
theorem riskScoreReasons_eq_applyRules (data : HealthSnapshot) :
    riskScoreReasons data = applyRules (0, []) (riskRules data) := by
  rw [riskRules]
  rw [applyRules_append, applyRules_append, applyRules_append, applyRules_append,
    applyRules_append, applyRules_append, applyRules_append, applyRules_append,
    applyRules_append]
  rw [← bmiStep_eq, ← sleepStep_eq, ← stressStep_eq, ← smokingStep_eq,
    ← alcoholStep_eq, ← heartRateStep_eq, ← tempStep_eq, ← spo2Step_eq,
    ← famHistStep_eq, ← condStep_eq]
  rfl

/-- The reasons list is exactly the reason strings of the fired rows, in
table order. -/
theorem riskReasons_spec (data : HealthSnapshot) :
    (riskScoreReasons data).2 = (firedRules data).map (fun r => r.1) := by
  rw [riskScoreReasons_eq_applyRules, applyRules_eq]
  simp [firedRules]

/-- The score is the sum of the score deltas of the fired rows. -/
theorem riskScore_spec (data : HealthSnapshot) :
    (riskScoreReasons data).1 = ((firedRules data).map (fun r => r.2)).sum := by
  rw [riskScoreReasons_eq_applyRules, applyRules_eq]
  simp only [firedRules, List.map_map, Nat.zero_add]
  rfl

theorem summarizeStatus_reasons (data : HealthSnapshot) :
    (summarizeStatus data).reasons = (riskScoreReasons data).2 := rfl

theorem summarizeStatus_level (data : HealthSnapshot) :
    (summarizeStatus data).level = levelOfScore (riskScoreReasons data).1 := rfl

theorem summarizeStatus_bmi (data : HealthSnapshot) :
    (summarizeStatus data).bmi = computeBMI data.height data.weight := rfl

/-! ## The insight list as an ordered (predicate, insight) table -/

/-- The §4.3 table: the twelve conditional insights in their fixed order,
with the condition each row fires on. -/
def insightTable (data : HealthSnapshot) : List (Bool × HealthInsight) :=
  let status := summarizeStatus data
  [((match status.bmi with | some b => decide (b ≠ 0) | none => false),
    bodyInsight (status.bmi.getD 0)),
   ((match data.sleep_hours with | some n => jsLt n (.finite 7) | none => false),
    sleepInsight data.sleep_hours),
   ((match data.heart_rate with | some n => jsLt (.finite 100) n | none => false),
    heartRateInsight data.heart_rate),
   ((match data.temperature_c with | some n => jsLe (.finite (37.8 : ℚ)) n | none => false),
    feverInsight data.temperature_c),
   ((match data.spo2 with | some n => jsLt n (.finite 94) | none => false),
    spo2Insight data.spo2),
   ((match data.symptoms_current with | some s => decide (s ≠ "") | none => false),
    symptomsInsight data.symptoms_current),
   (decide (data.stress_level = some "high" ∨ data.stress_level = some "very_high"),
    stressInsight data.stress_level),
   ((match data.exercise_frequency with
     | some e => decide (e ≠ "") && decide (e = "sedentary" ∨ e = "light")
     | none => false),
    activityInsight data.exercise_frequency),
   (decide (data.smoking_status = some "regular" ∨ data.smoking_status = some "occasional"),
    tobaccoInsight data.smoking_status),
   (decide (data.alcohol_consumption = some "heavy" ∨ data.alcohol_consumption = some "moderate"),
    alcoholInsight data.alcohol_consumption),
   (hasKeyword data.family_history ["heart", "stroke", "cancer"],
    famHistInsight),
   ((match data.conditions with | some c => decide (c ≠ "") | none => false),
    chronicInsight data.conditions)]

/-- The rows of a (condition, payload) table that fire, in order. -/
def condInsights (l : List (Bool × HealthInsight)) : List HealthInsight :=
  (l.filter (fun r => r.1)).map (fun r => r.2)

theorem foldl_pushIf_eq (acc : List HealthInsight) (l : List (Bool × HealthInsight)) :
    l.foldl (fun a r => pushIf a r.1 r.2) acc = acc ++ condInsights l := by
  induction l generalizing acc with
  | nil => simp [condInsights]
  | cons r rs ih =>
    rw [List.foldl_cons, ih]
    cases hr : r.1 with
    | true => simp [pushIf, hr, condInsights, List.filter_cons]
    | false => simp [pushIf, hr, condInsights, List.filter_cons]

/-- The `buildInsights` is "Overall status" followed by the fired rows of the
§4.3 table, in table order. -/
theorem buildInsights_eq (data : HealthSnapshot) :
    buildInsights data =
      overallInsight (summarizeStatus data) :: condInsights (insightTable data) := by
  have h : buildInsights data =
      (insightTable data).foldl (fun a r => pushIf a r.1 r.2)
        [overallInsight (summarizeStatus data)] := rfl
  rw [h, foldl_pushIf_eq]
  rfl

/-- The titles of the table rows are the twelve fixed titles, for every
snapshot. -/
theorem insightTable_titles (data : HealthSnapshot) :
    (insightTable data).map (fun r => r.2.title) =
      ["Body composition", "Sleep hygiene", "Heart rate", "Fever signal",
       "Oxygen saturation", "Current symptoms", "Stress load", "Activity level",
       "Tobacco risk", "Alcohol use", "Family history flags", "Chronic conditions"] := rfl

/-! ## The recommendation list: dedup by specialty and the rule table -/

/-- First-writer-wins deduplication on the specialty key. -/
def dedupBySpec : List Recommendation → List Recommendation
  | [] => []
  | r :: rs => r :: dedupBySpec (rs.filter (fun x => x.specialty != r.specialty))
termination_by l => l.length
decreasing_by
  simp only [List.length_cons]
  exact Nat.lt_succ_of_le (List.length_filter_le _ _)

/-- The §4.4 table: the four (trigger, recommendation) rules in order. -/
def recTable (data : HealthSnapshot) : List (Bool × Recommendation) :=
  [(cardioCond data, cardioRec data),
   (pulmoCond data, pulmoRec data),
   (endoCond data, endoRec),
   (behavCond data, behavRec)]

/-- The recommendations of fired rules, in rule order. -/
def condRecs (l : List (Bool × Recommendation)) : List Recommendation :=
  (l.filter (fun r => r.1)).map (fun r => r.2)

theorem mem_dedupBySpec {x : Recommendation} {l : List Recommendation} :
    x ∈ dedupBySpec l → x ∈ l := by
  induction l using dedupBySpec.induct with
  | case1 => simp [dedupBySpec]
  | case2 r rs ih =>
    intro hx
    rw [dedupBySpec] at hx
    rcases List.mem_cons.mp hx with h | h
    · simp [h]
    · exact List.mem_cons_of_mem _ (List.mem_of_mem_filter (ih h))

theorem dedupBySpec_nodup (l : List Recommendation) :
    ((dedupBySpec l).map (fun r => r.specialty)).Nodup := by
  induction l using dedupBySpec.induct with
  | case1 => simp [dedupBySpec]
  | case2 r rs ih =>
    rw [dedupBySpec]
    simp only [List.map_cons, List.nodup_cons]
    refine ⟨?_, ih⟩
    intro hmem
    rcases List.mem_map.mp hmem with ⟨x, hx, hspec⟩
    have hxf := mem_dedupBySpec hx
    have := List.of_mem_filter hxf
    simp only [bne_iff_ne, ne_eq] at this
    exact this hspec

/-- The `buildRecommendations` is the first-writer-wins dedup of the fired
rules, truncated to 4. -/
theorem buildRecommendations_eq (data : HealthSnapshot) :
    buildRecommendations data = (dedupBySpec (condRecs (recTable data))).take 4 := by
  cases h1 : cardioCond data <;> cases h2 : pulmoCond data <;>
    cases h3 : endoCond data <;> cases h4 : behavCond data <;>
      simp [buildRecommendations, recTable, condRecs, dedupBySpec, addRec,
        cardioRec, pulmoRec, endoRec, behavRec, h1, h2, h3, h4, List.filter]

/-! ## Lemmas about the string model: trimming is idempotent, and the
strings produced by the normalizer are nonempty and trimmed -/

/-- The tail-trimming half of `trimChars`. -/
def stripTail (l : List Char) : List Char := (l.reverse.dropWhile wsChar).reverse

theorem trimChars_decompose (l : List Char) : trimChars l = stripTail (stripLead l) := rfl

theorem dropWhile_dropWhile (p : Char → Bool) (l : List Char) :
    (l.dropWhile p).dropWhile p = l.dropWhile p := by
  induction l with
  | nil => rfl
  | cons a l ih =>
    by_cases hp : p a
    · simp [List.dropWhile_cons, hp, ih]
    · simp [List.dropWhile_cons, hp]

theorem dropWhile_head_false {p : Char → Bool} {l : List Char} {c : Char} {cs : List Char}
    (h : l.dropWhile p = c :: cs) : p c = false := by
  induction l with
  | nil => exact absurd h (by simp)
  | cons a l ih =>
    by_cases hp : p a
    · exact ih (by simpa [List.dropWhile_cons, hp] using h)
    · rw [List.dropWhile_cons_of_neg (by simpa using hp)] at h
      cases h
      simpa using hp

theorem dropWhile_eq_self_of {p : Char → Bool} {l : List Char}
    (h : ∀ c ∈ l, p c = false) : l.dropWhile p = l := by
  cases l with
  | nil => rfl
  | cons a l =>
    exact List.dropWhile_cons_of_neg (by simp [h a (by simp)])

theorem stripTail_idem (l : List Char) : stripTail (stripTail l) = stripTail l := by
  simp [stripTail, List.reverse_reverse, dropWhile_dropWhile]

theorem stripTail_prefix (l : List Char) :
    ∃ t, stripTail l ++ t = l := by
  refine ⟨(l.reverse.takeWhile wsChar).reverse, ?_⟩
  rw [stripTail, ← List.reverse_append, List.takeWhile_append_dropWhile, List.reverse_reverse]

theorem trimChars_idem (l : List Char) : trimChars (trimChars l) = trimChars l := by
  rw [trimChars_decompose, trimChars_decompose]
  cases hu : stripTail (stripLead l) with
  | nil => simp [stripLead, hu, stripTail]
  | cons c cs =>
    have hpre := stripTail_prefix (stripLead l)
    rcases hpre with ⟨t, ht⟩
    rw [hu] at ht
    have hc : wsChar c = false := by
      have : (stripLead l).dropWhile wsChar = c :: (cs ++ t) := by
        rw [stripLead, dropWhile_dropWhile]
        rw [show l.dropWhile wsChar = stripLead l from rfl, ← ht]
        rfl
      exact dropWhile_head_false this
    rw [← hu, show stripLead (stripTail (stripLead l)) = stripTail (stripLead l) by
      rw [hu]; exact List.dropWhile_cons_of_neg (by simp [hc])]
    exact stripTail_idem _

theorem trimChars_eq_self {l : List Char} (h : ∀ c ∈ l, wsChar c = false) :
    trimChars l = l := by
  rw [trimChars_decompose, stripLead, dropWhile_eq_self_of h, stripTail,
    dropWhile_eq_self_of (by intro c hc; exact h c (List.mem_reverse.mp hc)),
    List.reverse_reverse]

theorem jsTrim_jsTrim (s : String) : jsTrim (jsTrim s) = jsTrim s := by
  simp [jsTrim, trimChars_idem]

/-! Digit strings contain no whitespace. -/

theorem digitChar_not_ws (n : ℕ) : wsChar (digitChar n) = false := by
  have h : n % 10 < 10 := Nat.mod_lt _ (by norm_num)
  unfold digitChar
  interval_cases h : n % 10 <;> decide

theorem natDigits_ne_nil (n : ℕ) : natDigits n ≠ [] := by
  rw [natDigits]
  split
  · simp
  · simp

theorem natDigits_not_ws (n : ℕ) : ∀ c ∈ natDigits n, wsChar c = false := by
  induction n using natDigits.induct with
  | case1 n h =>
    intro c hc
    rw [natDigits, dif_pos h] at hc
    simp only [List.mem_singleton] at hc
    subst hc
    exact digitChar_not_ws n
  | case2 n h ih =>
    intro c hc
    rw [natDigits, dif_neg h] at hc
    rcases List.mem_append.mp hc with h2 | h2
    · exact ih c h2
    · simp only [List.mem_singleton] at h2
      subst h2
      exact digitChar_not_ws n

theorem fracDigits_not_ws (fuel : ℕ) (q : ℚ) : ∀ c ∈ fracDigits fuel q, wsChar c = false := by
  induction fuel generalizing q with
  | zero => simp [fracDigits]
  | succ fuel ih =>
    intro c hc
    rw [fracDigits] at hc
    split at hc
    · simp at hc
    · simp only [List.mem_cons] at hc
      rcases hc with h2 | h2
      · subst h2; exact digitChar_not_ws _
      · exact ih _ c h2

theorem jsNumToString_spec (q : ℚ) :
    (jsNumToString q).data ≠ [] ∧ ∀ c ∈ (jsNumToString q).data, wsChar c = false := by
  unfold jsNumToString
  constructor
  · simp [natDigits_ne_nil]
  · intro c hc
    simp only [List.mem_append] at hc
    rcases hc with (h2 | h2) | h2
    · split at h2 <;> simp at h2
      subst h2; decide
    · exact natDigits_not_ws _ c h2
    · split at h2
      · simp at h2
      · simp only [List.mem_cons] at h2
        rcases h2 with h3 | h3
        · subst h3; decide
        · exact fracDigits_not_ws _ _ c h3

theorem jsTrim_eq_self {s : String} (h : ∀ c ∈ s.data, wsChar c = false) : jsTrim s = s := by
  show String.mk (trimChars s.data) = s
  rw [trimChars_eq_self h]

/-- Every string produced by `stringVal` is nonempty and trimmed. -/
theorem stringVal_some {v : JSValue} {s : String} (h : stringVal v = some s) :
    s ≠ "" ∧ jsTrim s = s := by
  cases v with
  | str s0 =>
    simp only [stringVal] at h
    split at h
    · exact absurd h (by simp)
    · cases h
      constructor
      · assumption
      · exact jsTrim_jsTrim s0
  | num n =>
    cases n with
    | finite q =>
      simp only [stringVal] at h
      cases h
      have hs := jsNumToString_spec q
      constructor
      · intro hc
        exact hs.1 (congrArg String.data hc)
      · exact jsTrim_eq_self hs.2
    | nan => exact absurd h (by simp [stringVal])
    | inf => exact absurd h (by simp [stringVal])
    | negInf => exact absurd h (by simp [stringVal])
  | boolean b => exact absurd h (by simp [stringVal])
  | null => exact absurd h (by simp [stringVal])
  | undefined => exact absurd h (by simp [stringVal])
  | obj => exact absurd h (by simp [stringVal])

/-- Every number produced by `numberVal` is finite. -/
theorem numberVal_some {v : JSValue} {n : JSNum} (h : numberVal v = some n) :
    jsIsFinite n = true := by
  cases v with
  | num n0 =>
    simp only [numberVal] at h
    split at h
    · cases h; assumption
    · exact absurd h (by simp)
  | str s =>
    simp only [numberVal] at h
    split at h
    · cases h; assumption
    · exact absurd h (by simp)
  | boolean b => exact absurd h (by simp [numberVal])
  | null => exact absurd h (by simp [numberVal])
  | undefined => exact absurd h (by simp [numberVal])
  | obj => exact absurd h (by simp [numberVal])

/-! ## Snapshot invariants and normalization round-trips -/

/-- The C3 numeric-field invariant, decidably: finite or absent. -/
def finiteOrAbsent (x : Option JSNum) : Bool :=
  match x with
  | none => true
  | some n => jsIsFinite n

/-- The C3 string-field invariant, decidably: nonempty-and-trimmed or absent. -/
def trimmedOrAbsent (x : Option String) : Bool :=
  match x with
  | none => true
  | some s => !(s == "") && (jsTrim s == s)

/-- The `full_name` variant: empty (the default) or nonempty-and-trimmed. -/
def nameOk (s : String) : Bool :=
  (s == "") || (!(s == "") && (jsTrim s == s))

theorem stringVal_trimmedOrAbsent (v : JSValue) : trimmedOrAbsent (stringVal v) = true := by
  cases h : stringVal v with
  | none => rfl
  | some s =>
    have hs := stringVal_some h
    simp [trimmedOrAbsent, hs.1, hs.2]

theorem numberVal_finiteOrAbsent (v : JSValue) : finiteOrAbsent (numberVal v) = true := by
  cases h : numberVal v with
  | none => rfl
  | some n => simpa [finiteOrAbsent] using numberVal_some h

theorem fullName_nameOk (v : JSValue) : nameOk ((stringVal v).getD "") = true := by
  cases h : stringVal v with
  | none => rfl
  | some s =>
    have hs := stringVal_some h
    simp [nameOk, hs.1, hs.2]

/-- Embed a normalized optional number back into a raw JS value. -/
def numOptToJS (x : Option JSNum) : JSValue :=
  match x with
  | some n => .num n
  | none => .undefined

/-- Embed a normalized optional string back into a raw JS value. -/
def strOptToJS (x : Option String) : JSValue :=
  match x with
  | some s => .str s
  | none => .undefined

/-- View a snapshot as a raw record again (JS object spread of the
snapshot), for the idempotence property. -/
def snapshotToRaw (s : HealthSnapshot) : RawRecord :=
  [("full_name", .str s.full_name),
   ("age", numOptToJS s.age),
   ("sex", strOptToJS s.sex),
   ("height", numOptToJS s.height),
   ("weight", numOptToJS s.weight),
   ("blood_type", strOptToJS s.blood_type),
   ("allergies", strOptToJS s.allergies),
   ("conditions", strOptToJS s.conditions),
   ("medications", strOptToJS s.medications),
   ("medical_history", strOptToJS s.medical_history),
   ("past_reports", strOptToJS s.past_reports),
   ("prescriptions", strOptToJS s.prescriptions),
   ("symptoms_current", strOptToJS s.symptoms_current),
   ("symptoms_past", strOptToJS s.symptoms_past),
   ("location", strOptToJS s.location),
   ("smoking_status", strOptToJS s.smoking_status),
   ("alcohol_consumption", strOptToJS s.alcohol_consumption),
   ("exercise_frequency", strOptToJS s.exercise_frequency),
   ("diet_type", strOptToJS s.diet_type),
   ("sleep_hours", numOptToJS s.sleep_hours),
   ("stress_level", strOptToJS s.stress_level),
   ("family_history", strOptToJS s.family_history),
   ("health_goals", strOptToJS s.health_goals),
   ("emergency_contact_name", strOptToJS s.emergency_contact_name),
   ("emergency_contact_phone", strOptToJS s.emergency_contact_phone),
   ("blood_pressure", strOptToJS s.blood_pressure),
   ("heart_rate", numOptToJS s.heart_rate),
   ("temperature_c", numOptToJS s.temperature_c),
   ("spo2", numOptToJS s.spo2)]

/-- Re-coercing a coerced string field is the identity. -/
theorem stringVal_roundtrip (v : JSValue) :
    stringVal (strOptToJS (stringVal v)) = stringVal v := by
  cases h : stringVal v with
  | none => rfl
  | some s =>
    have hs := stringVal_some h
    simp only [strOptToJS, stringVal, hs.2]
    simp [hs.1]

/-- Re-coercing a coerced number field is the identity. -/
theorem numberVal_roundtrip (v : JSValue) :
    numberVal (numOptToJS (numberVal v)) = numberVal v := by
  cases h : numberVal v with
  | none => rfl
  | some n =>
    have hn := numberVal_some h
    simp [numOptToJS, numberVal, hn]

/-- Re-coercing the defaulted `full_name` field is the identity. -/
theorem fullName_roundtrip (v : JSValue) :
    (stringVal (.str ((stringVal v).getD ""))).getD "" = (stringVal v).getD "" := by
  cases h : stringVal v with
  | none => rfl
  | some s =>
    have hs := stringVal_some h
    simp only [Option.getD_some, stringVal, hs.2]
    simp [hs.1]

/-- The §4.1 number coercion in the (amended) words of the spec: a finite number
passes through; a string is trimmed and parsed with JS `Number` — so empty
and whitespace-only strings yield `0`, not absent — and kept when finite;
non-finite numbers, booleans, `null`, `undefined` and objects are absent. -/
def numCoerceSpec (v : JSValue) : Option JSNum :=
  match v with
  | .num (.finite q) => some (.finite q)
  | .num _ => none
  | .str s =>
    match jsNumber (jsTrim s) with
    | .finite q => some (.finite q)
    | _ => none
  | .boolean _ => none
  | .null => none
  | .undefined => none
  | .obj => none

theorem numberVal_eq_numCoerceSpec (v : JSValue) : numberVal v = numCoerceSpec v := by
  cases v with
  | num n => cases n <;> simp [numberVal, numCoerceSpec, jsIsFinite]
  | str s =>
    simp only [numberVal, numCoerceSpec]
    cases h : jsNumber (jsTrim s) <;> simp [h, jsIsFinite]
  | boolean b => rfl
  | null => rfl
  | undefined => rfl
  | obj => rfl

/-- A whitespace-only string coerces to the number `0` (in JS, `Number` of
the empty string is `0`). -/
theorem numberVal_whitespace {s : String} (h : ∀ c ∈ s.data, wsChar c = true) :
    numberVal (.str s) = some (.finite 0) := by
  have htrim : trimChars s.data = [] := by
    rw [trimChars_decompose, stripLead, List.dropWhile_eq_nil_iff.mpr (by simpa using h)]
    rfl
  have h2 : jsNumber (jsTrim s) = .finite 0 := by
    rw [jsNumber]
    have : trimChars (jsTrim s).data = [] := by
      show trimChars (trimChars s.data) = []
      rw [htrim]
      rfl
    rw [this]
  simp [numberVal, h2, jsIsFinite]

/-! ## Evaluating the rational arithmetic of `computeBMI` -/

theorem jsToFixed1_eval (q r : ℚ) (z : ℤ) (h1 : (z : ℚ) ≤ q * 10 + 1 / 2)
    (h2 : q * 10 + 1 / 2 < z + 1) (hz : (z : ℚ) / 10 = r) : jsToFixed1 q = r := by
  rw [jsToFixed1, Int.floor_eq_iff.mpr ⟨h1, h2⟩, hz]

/-- The `computeBMI` on finite, non-falsy, positive-height inputs. -/
theorem computeBMI_finite (h w : ℚ) (hh0 : h ≠ 0) (hw0 : w ≠ 0) (hpos : ¬ (h / 100 ≤ 0)) :
    computeBMI (some (.finite h)) (some (.finite w)) =
      some (jsToFixed1 (w / (h / 100 * (h / 100)))) := by
  have hd : h / 100 ≠ 0 := div_ne_zero hh0 (by norm_num)
  have hq : h / 100 * (h / 100) ≠ 0 := mul_ne_zero hd hd
  simp [computeBMI, jsNumFalsy, jsDiv, jsMul, jsLe, hh0, hw0, hpos, hq]

/-! ## Score bounds: every rule contributes 1 or 2 -/

theorem riskRules_deltas (data : HealthSnapshot) :
    (riskRules data).map (fun r => r.2.2) = [2, 1, 1, 1, 2, 1, 2, 1, 1, 1, 1, 1, 1] := rfl

theorem riskRules_delta_mem (data : HealthSnapshot) :
    ∀ r ∈ riskRules data, 1 ≤ r.2.2 ∧ r.2.2 ≤ 2 := by
  intro r hr
  have hx : r.2.2 ∈ (riskRules data).map (fun r => r.2.2) := List.mem_map_of_mem _ hr
  rw [riskRules_deltas] at hx
  simp only [List.mem_cons, List.not_mem_nil, or_false] at hx
  omega

theorem firedRules_delta_mem (data : HealthSnapshot) :
    ∀ r ∈ firedRules data, 1 ≤ r.2 ∧ r.2 ≤ 2 := by
  intro r hr
  rcases List.mem_map.mp hr with ⟨x, hx, hrx⟩
  have := riskRules_delta_mem data x (List.mem_of_mem_filter hx)
  rw [hrx] at this
  exact this

theorem sum_bounds {L : List (String × ℕ)} (h : ∀ r ∈ L, 1 ≤ r.2 ∧ r.2 ≤ 2) :
    L.length ≤ (L.map (fun r => r.2)).sum ∧ (L.map (fun r => r.2)).sum ≤ 2 * L.length := by
  induction L with
  | nil => simp
  | cons r rs ih =>
    have hr := h r (by simp)
    have hrs := ih (fun x hx => h x (List.mem_cons_of_mem _ hx))
    simp only [List.map_cons, List.sum_cons, List.length_cons]
    omega

theorem levelOfScore_action_iff (s : ℕ) : levelOfScore s = Level.action ↔ 4 ≤ s := by
  unfold levelOfScore
  split_ifs with h1 h2 <;> simp_all

theorem levelOfScore_good_iff (s : ℕ) : levelOfScore s = Level.good ↔ s < 2 := by
  unfold levelOfScore
  split_ifs with h1 h2 <;> simp_all
  all_goals omega

/-! ## Concrete snapshots used by the worked examples -/

/-- The snapshot with every optional field absent. -/
def emptySnap : HealthSnapshot where
  full_name := ""
  age := none
  sex := none
  height := none
  weight := none
  blood_type := none
  allergies := none
  conditions := none
  medications := none
  medical_history := none
  past_reports := none
  prescriptions := none
  symptoms_current := none
  symptoms_past := none
  location := none
  smoking_status := none
  alcohol_consumption := none
  exercise_frequency := none
  diet_type := none
  sleep_hours := none
  stress_level := none
  family_history := none
  health_goals := none
  emergency_contact_name := none
  emergency_contact_phone := none
  blood_pressure := none
  heart_rate := none
  temperature_c := none
  spo2 := none

/-- The raw record of the §8 risk example of the spec. -/
def c1Raw : RawRecord :=
  [("height", .num (.finite 170)), ("weight", .num (.finite 95)),
   ("sleep_hours", .num (.finite 5)), ("stress_level", .str "high"),
   ("smoking_status", .str "regular"), ("alcohol_consumption", .str "moderate")]

/-- The snapshot the §8 risk example normalizes to. -/
def c1Snap : HealthSnapshot :=
  { emptySnap with
    height := some (.finite 170)
    weight := some (.finite 95)
    sleep_hours := some (.finite 5)
    stress_level := some "high"
    smoking_status := some "regular"
    alcohol_consumption := some "moderate" }

theorem c1_normalize : normalizeOnboardingData (some c1Raw) = c1Snap := by decide

theorem c1_bmi : computeBMI c1Snap.height c1Snap.weight = some (329 / 10 : ℚ) := by
  show computeBMI (some (.finite 170)) (some (.finite 95)) = _
  rw [computeBMI_finite 170 95 (by norm_num) (by norm_num) (by norm_num)]
  rw [jsToFixed1_eval _ (329 / 10) 329 (by norm_num) (by norm_num) (by norm_num)]

theorem c1_risk : riskScoreReasons c1Snap =
    (7, ["BMI in obese range", "Low sleep (<6h)", "Elevated stress",
         "Smoking habit", "Moderate alcohol intake"]) := by
  simp only [riskScoreReasons, c1_bmi, bmiStep, sleepStep, stressStep, smokingStep,
    alcoholStep, heartRateStep, tempStep, spo2Step, famHistStep, condStep,
    jsLt, jsLe, hasKeyword]
  norm_num [c1Snap, emptySnap]
  decide

/-- A string-only snapshot whose risk level is `action` (score 4 from
regular smoking and heavy alcohol). -/
def actionSnap : HealthSnapshot :=
  { emptySnap with
    smoking_status := some "regular"
    alcohol_consumption := some "heavy" }

/-- A snapshot whose current symptoms mention chest pain. -/
def chestPainSnap : HealthSnapshot :=
  { emptySnap with symptoms_current := some "chest pain" }

/-! ## The claims -/

/-- C1: `summarizeStatus` evaluates the risk checks in the fixed order of
the §4.2 table — the reasons list is exactly the reason strings of the fired rows
in table order, the score the sum of their deltas — the level is mapped from
the score by "≥ 4 → action, ≥ 2 (and < 4) → watch, else good", and on the
snapshot normalized from {height:170, weight:95, sleep_hours:5,
stress_level:"high", smoking_status:"regular", alcohol_consumption:
"moderate"} the level is `action` and the reasons include "BMI in obese
range" and "Low sleep (<6h)". -/
theorem claim_C1_risk_table_and_example :
    (∀ data : HealthSnapshot,
      (summarizeStatus data).reasons = (firedRules data).map (fun r => r.1) ∧
      (riskScoreReasons data).1 = ((firedRules data).map (fun r => r.2)).sum ∧
      (summarizeStatus data).level = levelOfScore (riskScoreReasons data).1) ∧
    normalizeOnboardingData (some c1Raw) = c1Snap ∧
    (summarizeStatus c1Snap).level = Level.action ∧
    "BMI in obese range" ∈ (summarizeStatus c1Snap).reasons ∧
    "Low sleep (<6h)" ∈ (summarizeStatus c1Snap).reasons := by
  refine ⟨fun data =>
    ⟨(summarizeStatus_reasons data).trans (riskReasons_spec data),
     riskScore_spec data, summarizeStatus_level data⟩,
    c1_normalize, ?_, ?_, ?_⟩
  · rw [summarizeStatus_level, c1_risk]
    rfl
  · rw [summarizeStatus_reasons, c1_risk]
    decide
  · rw [summarizeStatus_reasons, c1_risk]
    decide

/-- C2 counterexample: the claim says every empty or whitespace-only string
raw value leaves the numeric field absent; but in JavaScript the `Number`
conversion maps the empty string to `0`, which is finite, so a
whitespace-only `age` normalizes to the number 0, not to absent. -/
theorem claim_C2_counterexample :
    (normalizeOnboardingData (some [("age", JSValue.str " ")])).age =
      some (JSNum.finite 0) ∧
    ¬ (normalizeOnboardingData (some [("age", JSValue.str " ")])).age = none := by
  decide

/-- C2 (amended): each numeric field of the normalized snapshot is the
number coercion of the corresponding raw value, where a finite number passes
through, a string is trimmed and parsed with JS `Number` — empty and
whitespace-only strings therefore yield the number 0, not absent — and every
other raw value (non-finite number, boolean, null, undefined, object) is
absent. -/
theorem claim_C2_number_coercion_amended :
    (∀ raw : Option RawRecord,
      (normalizeOnboardingData raw).age = numCoerceSpec (getField (raw.getD []) "age") ∧
      (normalizeOnboardingData raw).height = numCoerceSpec (getField (raw.getD []) "height") ∧
      (normalizeOnboardingData raw).weight = numCoerceSpec (getField (raw.getD []) "weight") ∧
      (normalizeOnboardingData raw).sleep_hours =
        numCoerceSpec (getField (raw.getD []) "sleep_hours") ∧
      (normalizeOnboardingData raw).heart_rate =
        numCoerceSpec (getField (raw.getD []) "heart_rate") ∧
      (normalizeOnboardingData raw).temperature_c =
        numCoerceSpec (getField (raw.getD []) "temperature_c") ∧
      (normalizeOnboardingData raw).spo2 = numCoerceSpec (getField (raw.getD []) "spo2")) ∧
    (∀ v : JSValue, numberVal v = numCoerceSpec v) ∧
    (∀ s : String, (∀ c ∈ s.data, wsChar c = true) →
      numberVal (.str s) = some (.finite 0)) := by
  refine ⟨fun raw => ⟨?_, ?_, ?_, ?_, ?_, ?_, ?_⟩,
    numberVal_eq_numCoerceSpec, fun s h => numberVal_whitespace h⟩
  all_goals exact numberVal_eq_numCoerceSpec _

/-- Witness for the amended C2: the whitespace-only string coerces to 0. -/
theorem claim_C2_amended_witness :
    (∀ c ∈ (" " : String).data, wsChar c = true) ∧
    numberVal (.str " ") = some (.finite 0) :=
  ⟨by decide, claim_C2_number_coercion_amended.2.2 " " (by decide)⟩

/-- C3: on every input, each numeric field of the normalized snapshot is a
finite number or absent, each string field is a nonempty trimmed string or
absent, and `full_name` is the empty string or nonempty and trimmed. -/
theorem claim_C3_snapshot_invariant :
    ∀ raw : Option RawRecord,
      nameOk (normalizeOnboardingData raw).full_name = true ∧
      finiteOrAbsent (normalizeOnboardingData raw).age = true ∧
      trimmedOrAbsent (normalizeOnboardingData raw).sex = true ∧
      finiteOrAbsent (normalizeOnboardingData raw).height = true ∧
      finiteOrAbsent (normalizeOnboardingData raw).weight = true ∧
      trimmedOrAbsent (normalizeOnboardingData raw).blood_type = true ∧
      trimmedOrAbsent (normalizeOnboardingData raw).allergies = true ∧
      trimmedOrAbsent (normalizeOnboardingData raw).conditions = true ∧
      trimmedOrAbsent (normalizeOnboardingData raw).medications = true ∧
      trimmedOrAbsent (normalizeOnboardingData raw).medical_history = true ∧
      trimmedOrAbsent (normalizeOnboardingData raw).past_reports = true ∧
      trimmedOrAbsent (normalizeOnboardingData raw).prescriptions = true ∧
      trimmedOrAbsent (normalizeOnboardingData raw).symptoms_current = true ∧
      trimmedOrAbsent (normalizeOnboardingData raw).symptoms_past = true ∧
      trimmedOrAbsent (normalizeOnboardingData raw).location = true ∧
      trimmedOrAbsent (normalizeOnboardingData raw).smoking_status = true ∧
      trimmedOrAbsent (normalizeOnboardingData raw).alcohol_consumption = true ∧
      trimmedOrAbsent (normalizeOnboardingData raw).exercise_frequency = true ∧
      trimmedOrAbsent (normalizeOnboardingData raw).diet_type = true ∧
      finiteOrAbsent (normalizeOnboardingData raw).sleep_hours = true ∧
      trimmedOrAbsent (normalizeOnboardingData raw).stress_level = true ∧
      trimmedOrAbsent (normalizeOnboardingData raw).family_history = true ∧
      trimmedOrAbsent (normalizeOnboardingData raw).health_goals = true ∧
      trimmedOrAbsent (normalizeOnboardingData raw).emergency_contact_name = true ∧
      trimmedOrAbsent (normalizeOnboardingData raw).emergency_contact_phone = true ∧
      trimmedOrAbsent (normalizeOnboardingData raw).blood_pressure = true ∧
      finiteOrAbsent (normalizeOnboardingData raw).heart_rate = true ∧
      finiteOrAbsent (normalizeOnboardingData raw).temperature_c = true ∧
      finiteOrAbsent (normalizeOnboardingData raw).spo2 = true := by
  intro raw
  exact ⟨fullName_nameOk _, numberVal_finiteOrAbsent _, stringVal_trimmedOrAbsent _,
    numberVal_finiteOrAbsent _, numberVal_finiteOrAbsent _, stringVal_trimmedOrAbsent _,
    stringVal_trimmedOrAbsent _, stringVal_trimmedOrAbsent _, stringVal_trimmedOrAbsent _,
    stringVal_trimmedOrAbsent _, stringVal_trimmedOrAbsent _, stringVal_trimmedOrAbsent _,
    stringVal_trimmedOrAbsent _, stringVal_trimmedOrAbsent _, stringVal_trimmedOrAbsent _,
    stringVal_trimmedOrAbsent _, stringVal_trimmedOrAbsent _, stringVal_trimmedOrAbsent _,
    stringVal_trimmedOrAbsent _, numberVal_finiteOrAbsent _, stringVal_trimmedOrAbsent _,
    stringVal_trimmedOrAbsent _, stringVal_trimmedOrAbsent _, stringVal_trimmedOrAbsent _,
    stringVal_trimmedOrAbsent _, stringVal_trimmedOrAbsent _, numberVal_finiteOrAbsent _,
    numberVal_finiteOrAbsent _, numberVal_finiteOrAbsent _⟩

/-- C7: `computeBMI(180, 81)` is 25.0; the result is absent whenever height
or weight is missing, whenever weight is 0, and whenever height is zero or
negative — the guards keep a non-finite result from ever being returned. -/
theorem claim_C7_computeBMI :
    computeBMI (some (.finite 180)) (some (.finite 81)) = some 25 ∧
    (∀ w, computeBMI none w = none) ∧
    (∀ h, computeBMI h none = none) ∧
    (∀ h, computeBMI h (some (.finite 0)) = none) ∧
    (∀ x : ℚ, ∀ w, x ≤ 0 → computeBMI (some (.finite x)) w = none) := by
  refine ⟨?_, fun w => rfl, fun h => ?_, fun h => ?_, fun x w hx => ?_⟩
  · rw [computeBMI_finite 180 81 (by norm_num) (by norm_num) (by norm_num)]
    rw [jsToFixed1_eval _ 25 250 (by norm_num) (by norm_num) (by norm_num)]
  · cases h <;> rfl
  · cases h with
    | none => rfl
    | some n => simp [computeBMI, jsNumFalsy]
  · cases w with
    | none => rfl
    | some wn =>
      by_cases hx0 : x = 0
      · simp [computeBMI, jsNumFalsy, hx0]
      · have h100 : x / 100 ≤ 0 := by
          rw [div_eq_mul_inv]
          exact mul_nonpos_iff.mpr (Or.inr ⟨hx, by norm_num⟩)
        cases hfw : jsNumFalsy wn with
        | true => simp [computeBMI, hfw]
        | false => simp [computeBMI, hfw, jsNumFalsy, hx0, jsDiv, jsLe, h100]

/-- Witness for the guarded cases of C7 at a concrete negative height. -/
theorem claim_C7_witness :
    ((-170 : ℚ) ≤ 0) ∧ computeBMI (some (.finite (-170))) (some (.finite 81)) = none :=
  ⟨by norm_num, claim_C7_computeBMI.2.2.2.2 (-170) (some (.finite 81)) (by norm_num)⟩

/-- C9: every fired check contributes one reason and a delta of 1 or 2, so
`reasons.length ≤ score ≤ 2 · reasons.length`; hence the reasons list is
empty exactly when the score is 0, an `action` result carries at least two
reasons, and a `good` result at most one. -/
theorem claim_C9_score_reason_bounds :
    ∀ data : HealthSnapshot,
      (riskScoreReasons data).2.length ≤ (riskScoreReasons data).1 ∧
      (riskScoreReasons data).1 ≤ 2 * (riskScoreReasons data).2.length ∧
      ((summarizeStatus data).reasons = [] ↔ (riskScoreReasons data).1 = 0) ∧
      ((summarizeStatus data).level = Level.action →
        2 ≤ (summarizeStatus data).reasons.length) ∧
      ((summarizeStatus data).level = Level.good →
        (summarizeStatus data).reasons.length ≤ 1) := by
  intro data
  have hlen : (riskScoreReasons data).2.length = (firedRules data).length := by
    rw [riskReasons_spec]
    simp
  have hb := sum_bounds (firedRules_delta_mem data)
  have hs := riskScore_spec data
  have h1 : (riskScoreReasons data).2.length ≤ (riskScoreReasons data).1 := by
    rw [hlen, hs]
    exact hb.1
  have h2 : (riskScoreReasons data).1 ≤ 2 * (riskScoreReasons data).2.length := by
    rw [hlen, hs]
    exact hb.2
  refine ⟨h1, h2, ?_, ?_, ?_⟩
  · rw [summarizeStatus_reasons]
    constructor
    · intro he
      have h0 : (riskScoreReasons data).2.length = 0 := by rw [he]; rfl
      omega
    · intro h0
      have : (riskScoreReasons data).2.length = 0 := by omega
      exact List.length_eq_zero.mp this
  · rw [summarizeStatus_level, summarizeStatus_reasons]
    intro ha
    have := (levelOfScore_action_iff _).mp ha
    omega
  · rw [summarizeStatus_level, summarizeStatus_reasons]
    intro hg
    have := (levelOfScore_good_iff _).mp hg
    omega

/-- Witness for the level consequences of C9 at concrete snapshots: an
action-level snapshot with at least two reasons and a good-level snapshot
with at most one. -/
theorem claim_C9_witness :
    (summarizeStatus actionSnap).level = Level.action ∧
    2 ≤ (summarizeStatus actionSnap).reasons.length ∧
    (summarizeStatus emptySnap).level = Level.good ∧
    (summarizeStatus emptySnap).reasons.length ≤ 1 :=
  ⟨by decide, (claim_C9_score_reason_bounds actionSnap).2.2.2.1 (by decide),
   by decide, (claim_C9_score_reason_bounds emptySnap).2.2.2.2 (by decide)⟩

/-- C4: `buildInsights` always starts with the "Overall status" insight,
whose severity is high/medium/low exactly as the level is
action/watch/good, and the remainder is the fired rows of the fixed-order
§4.3 table (Body composition, Sleep hygiene, Heart rate, Fever signal,
Oxygen saturation, Current symptoms, Stress load, Activity level, Tobacco
risk, Alcohol use, Family history flags, Chronic conditions), skipping rows
whose condition is false. -/
theorem claim_C4_insight_order :
    ∀ data : HealthSnapshot,
      buildInsights data ≠ [] ∧
      (buildInsights data).head? = some (overallInsight (summarizeStatus data)) ∧
      (overallInsight (summarizeStatus data)).title = "Overall status" ∧
      ((overallInsight (summarizeStatus data)).severity =
        match (summarizeStatus data).level with
        | Level.action => Severity.high
        | Level.watch => Severity.medium
        | Level.good => Severity.low) ∧
      (buildInsights data).tail = condInsights (insightTable data) ∧
      (insightTable data).map (fun r => r.2.title) =
        ["Body composition", "Sleep hygiene", "Heart rate", "Fever signal",
         "Oxygen saturation", "Current symptoms", "Stress load", "Activity level",
         "Tobacco risk", "Alcohol use", "Family history flags", "Chronic conditions"] := by
  intro data
  refine ⟨?_, ?_, rfl, ?_, ?_, insightTable_titles data⟩
  · rw [buildInsights_eq]
    simp
  · rw [buildInsights_eq]
    rfl
  · cases h : (summarizeStatus data).level <;> simp [overallInsight, h]
  · rw [buildInsights_eq]
    rfl

/-- C10: the titles of the insights returned by `buildInsights` are
pairwise distinct — each of the 13 possible titles appears at most once. -/
theorem claim_C10_titles_nodup :
    ∀ data : HealthSnapshot,
      ((buildInsights data).map (fun i => i.title)).Nodup ∧
      ∀ t : String, ((buildInsights data).map (fun i => i.title)).count t ≤ 1 := by
  intro data
  have hnd : ((buildInsights data).map (fun i => i.title)).Nodup := by
    rw [buildInsights_eq, List.map_cons]
    have h1 : (condInsights (insightTable data)).map (fun i => i.title) =
        ((insightTable data).filter (fun r => r.1)).map (fun r => r.2.title) := by
      rw [condInsights, List.map_map]
      rfl
    have hsub : ((condInsights (insightTable data)).map (fun i => i.title)).Sublist
        ((insightTable data).map (fun r => r.2.title)) := by
      rw [h1]
      exact (List.filter_sublist _).map _
    rw [insightTable_titles] at hsub
    refine List.nodup_cons.mpr ⟨?_, hsub.nodup (by decide)⟩
    · intro hmem
      exact absurd (hsub.subset hmem)
        (by decide : ¬ ("Overall status" : String) ∈
          ["Body composition", "Sleep hygiene", "Heart rate", "Fever signal",
           "Oxygen saturation", "Current symptoms", "Stress load", "Activity level",
           "Tobacco risk", "Alcohol use", "Family history flags", "Chronic conditions"])
  exact ⟨hnd, fun t => List.nodup_iff_count_le_one.mp hnd t⟩

/-- C5: `buildRecommendations` returns at most 4 recommendations with
pairwise-distinct specialties, and the result is the first-writer-wins
specialty dedup of the fired rules, truncated to the first 4 in
rule-evaluation order. -/
theorem claim_C5_rec_cap_and_dedup :
    ∀ data : HealthSnapshot,
      (buildRecommendations data).length ≤ 4 ∧
      ((buildRecommendations data).map (fun r => r.specialty)).Nodup ∧
      buildRecommendations data = (dedupBySpec (condRecs (recTable data))).take 4 := by
  intro data
  refine ⟨?_, ?_, buildRecommendations_eq data⟩
  · rw [buildRecommendations_eq, List.length_take]
    exact min_le_left _ _
  · rw [buildRecommendations_eq]
    have hsub : (((dedupBySpec (condRecs (recTable data))).take 4).map
        (fun r => r.specialty)).Sublist
        ((dedupBySpec (condRecs (recTable data))).map (fun r => r.specialty)) :=
      (List.take_sublist _ _).map _
    exact hsub.nodup (dedupBySpec_nodup _)

/-- Every returned recommendation is one of the four rule payloads. -/
theorem mem_buildRecommendations {r : Recommendation} {data : HealthSnapshot}
    (h : r ∈ buildRecommendations data) :
    r = cardioRec data ∨ r = pulmoRec data ∨ r = endoRec ∨ r = behavRec := by
  rw [buildRecommendations_eq] at h
  have h3 : r ∈ condRecs (recTable data) :=
    mem_dedupBySpec ((List.take_sublist _ _).subset h)
  rcases List.mem_map.mp h3 with ⟨x, hx, hrx⟩
  have hx2 : x ∈ recTable data := List.mem_of_mem_filter hx
  simp only [recTable, List.mem_cons, List.not_mem_nil, or_false] at hx2
  rcases hx2 with h | h | h | h <;> rw [← hrx, h] <;> simp

/-- C6: the symptom text for keyword matching is `symptoms_current`, falling
back to `conditions`, then `symptoms_past`, then the empty string; a
Cardiology recommendation is emitted exactly when the Cardiology trigger
(chest pain / shortness of breath / palpitations in the symptom text, heart
or cardiac in the family history, or hypertension in the conditions) holds;
its urgency is high exactly when the symptom text mentions chest pain or
shortness of breath; and no rule ever emits a "Primary Care" specialty. -/
theorem claim_C6_cardiology_rule :
    ∀ data : HealthSnapshot,
      (symptomTextOf data =
        match data.symptoms_current, data.conditions, data.symptoms_past with
        | some s, _, _ => s
        | none, some c, _ => c
        | none, none, some p => p
        | none, none, none => "") ∧
      ((buildRecommendations data).any (fun r => r.specialty == "Cardiology") =
        (hasKeyword (some (symptomTextOf data))
            ["chest pain", "shortness of breath", "palpitations"] ||
          hasKeyword data.family_history ["heart", "cardiac"] ||
          hasKeyword data.conditions ["hypertension"])) ∧
      (∀ r ∈ buildRecommendations data, r.specialty = "Cardiology" →
        r.urgency =
          (if hasKeyword (some (symptomTextOf data)) ["chest pain", "shortness of breath"]
           then Severity.high else Severity.medium)) ∧
      (∀ r ∈ buildRecommendations data, r.specialty ≠ "Primary Care") := by
  intro data
  refine ⟨?_, ?_, ?_, ?_⟩
  · cases hs : data.symptoms_current <;> cases hc : data.conditions <;>
      cases hp : data.symptoms_past <;> simp [symptomTextOf, hs, hc, hp]
  · show _ = cardioCond data
    rw [buildRecommendations_eq]
    cases h1 : cardioCond data <;> cases h2 : pulmoCond data <;>
      cases h3 : endoCond data <;> cases h4 : behavCond data <;>
        simp [recTable, condRecs, dedupBySpec, cardioRec, pulmoRec, endoRec, behavRec,
          h1, h2, h3, h4, List.filter]
  · intro r hr hspec
    rcases mem_buildRecommendations hr with h | h | h | h <;> subst h
    · rfl
    · have h2 : ("Pulmonology" : String) = "Cardiology" := hspec
      exact absurd h2 (by decide)
    · have h2 : ("Endocrinology" : String) = "Cardiology" := hspec
      exact absurd h2 (by decide)
    · have h2 : ("Behavioral Health" : String) = "Cardiology" := hspec
      exact absurd h2 (by decide)
  · intro r hr
    rcases mem_buildRecommendations hr with h | h | h | h <;> subst h
    · exact (by decide : ¬ ("Cardiology" : String) = "Primary Care")
    · exact (by decide : ¬ ("Pulmonology" : String) = "Primary Care")
    · exact (by decide : ¬ ("Endocrinology" : String) = "Primary Care")
    · exact (by decide : ¬ ("Behavioral Health" : String) = "Primary Care")

/-- Witness for C6 on a snapshot whose symptoms mention chest pain: the
Cardiology recommendation is present with high urgency and no Primary Care
entry exists. -/
theorem claim_C6_witness :
    cardioRec chestPainSnap ∈ buildRecommendations chestPainSnap ∧
    (cardioRec chestPainSnap).urgency =
      (if hasKeyword (some (symptomTextOf chestPainSnap)) ["chest pain", "shortness of breath"]
       then Severity.high else Severity.medium) ∧
    (cardioRec chestPainSnap).specialty ≠ "Primary Care" :=
  ⟨by decide,
   (claim_C6_cardiology_rule chestPainSnap).2.2.1 _ (by decide) (by decide),
   (claim_C6_cardiology_rule chestPainSnap).2.2.2 _ (by decide)⟩

/-- C8: normalization is idempotent — re-normalizing the raw view of a
normalized snapshot reproduces the snapshot field-for-field. -/
theorem claim_C8_normalize_idempotent :
    ∀ raw : Option RawRecord,
      normalizeOnboardingData (some (snapshotToRaw (normalizeOnboardingData raw))) =
        normalizeOnboardingData raw := by
  intro raw
  apply HealthSnapshot.ext
  · exact fullName_roundtrip (getField (raw.getD []) "full_name")
  · exact numberVal_roundtrip (getField (raw.getD []) "age")
  · exact stringVal_roundtrip (getField (raw.getD []) "sex")
  · exact numberVal_roundtrip (getField (raw.getD []) "height")
  · exact numberVal_roundtrip (getField (raw.getD []) "weight")
  · exact stringVal_roundtrip (getField (raw.getD []) "blood_type")
  · exact stringVal_roundtrip (getField (raw.getD []) "allergies")
  · exact stringVal_roundtrip (getField (raw.getD []) "conditions")
  · exact stringVal_roundtrip (getField (raw.getD []) "medications")
  · exact stringVal_roundtrip (getField (raw.getD []) "medical_history")
  · exact stringVal_roundtrip (getField (raw.getD []) "past_reports")
  · exact stringVal_roundtrip (getField (raw.getD []) "prescriptions")
  · exact stringVal_roundtrip (getField (raw.getD []) "symptoms_current")
  · exact stringVal_roundtrip (getField (raw.getD []) "symptoms_past")
  · exact stringVal_roundtrip (getField (raw.getD []) "location")
  · exact stringVal_roundtrip (getField (raw.getD []) "smoking_status")
  · exact stringVal_roundtrip (getField (raw.getD []) "alcohol_consumption")
  · exact stringVal_roundtrip (getField (raw.getD []) "exercise_frequency")
  · exact stringVal_roundtrip (getField (raw.getD []) "diet_type")
  · exact numberVal_roundtrip (getField (raw.getD []) "sleep_hours")
  · exact stringVal_roundtrip (getField (raw.getD []) "stress_level")
  · exact stringVal_roundtrip (getField (raw.getD []) "family_history")
  · exact stringVal_roundtrip (getField (raw.getD []) "health_goals")
  · exact stringVal_roundtrip (getField (raw.getD []) "emergency_contact_name")
  · exact stringVal_roundtrip (getField (raw.getD []) "emergency_contact_phone")
  · exact stringVal_roundtrip (getField (raw.getD []) "blood_pressure")
  · exact numberVal_roundtrip (getField (raw.getD []) "heart_rate")
  · exact numberVal_roundtrip (getField (raw.getD []) "temperature_c")
  · exact numberVal_roundtrip (getField (raw.getD []) "spo2")

end DocChat
